import Mathlib

/-!
Shallow embedding of `pkg/controllers/crds/crds_controller.go` (the certificate
lifecycle engine of the repository): PEM codec, certificate validator
(`ValidCert`, `validCACert`, `validServerCert`), certificate issuer
(`CreateCACert`, `CreateCertPEM`, `pemEncode`), and the rotation engine
(`refreshCertIfNeeded`, `refreshCerts`, `buildArtifactsFromSecret`,
`populateSecret`, `writeSecret`, `updateCRD`).

Modelling conventions:
* `time.Time` and `time.Duration` are `Int` seconds.
* X.509 certificates are structures keeping exactly the template fields the
  source sets, plus the subject public key, the signer public key and the
  issuer common name (what `x509.CreateCertificate` derives from its
  arguments).  Chain verification (`x509.Certificate.Verify`) is modelled by
  the checks the Go library performs that are reachable here: validity window
  of every chain certificate, DNS-name membership, the roots-pool
  self-membership shortcut, for a non-self parent the candidate-parent checks
  (explicitly-non-CA rejection, certificate-sign key usage, issuer/subject
  match, signature key match), and the extended-key-usage filter over the
  candidate chains (`checkChainForKeyUsage` with `opts.KeyUsages` defaulting
  to `[ExtKeyUsageServerAuth]`, rejecting with `IncompatibleUsage`).
* DER byte strings are the inductive `Der` (a parsed certificate, a PKCS#1
  key, a PKCS#8 key, or junk); PEM armor is a list of `Token`s so that
  `pem.Decode` really scans for the first well-formed block.
* `rsa.GenerateKey(rand.Reader, 2048)` is modelled by threading the fresh key
  as an explicit argument (two per rotation pass: one for the CA, one for the
  leaf); key material is identified by a `Nat` id, the public key carries the
  same id.
* `r.Update` (the Kubernetes store write) always succeeds; every performed
  save is recorded in the pass result so that the save contract is provable.
* `os.Exit(0)` under `RestartOnSecretRefresh` is recorded as the `exited`
  flag; the Go nil-pointer dereference that would follow the source path
  `buildArtifactsFromSecret` returning `(nil, nil)` (its `keyDer == nil`
  branch returns the nil `err` of the preceding `ParseCertificate`) is
  recorded as the `crashed` flag.
-/

set_option linter.unusedVariables false

namespace CrdsController

/-- `time.Hour` in seconds. -/
def hourSec : Int := 3600

/-- `rotationCheckFrequency = 12 * time.Hour`. -/
def rotationCheckFrequency : Int := 12 * hourSec

/-- `certValidityDuration = 10 * 365 * 24 * time.Hour`. -/
def certValidityDuration : Int := 10 * 365 * 24 * hourSec

/-- `lookaheadInterval = 90 * 24 * time.Hour`. -/
def lookaheadInterval : Int := 90 * 24 * hourSec

/-- `x509.KeyUsageDigitalSignature` (bit 0). -/
def keyUsageDigitalSignature : Nat := 1

/-- `x509.KeyUsageKeyEncipherment` (bit 2). -/
def keyUsageKeyEncipherment : Nat := 4

/-- `x509.KeyUsageCertSign` (bit 5). -/
def keyUsageCertSign : Nat := 32

/-- `x509.ExtKeyUsageAny`. -/
def extKeyUsageAny : Nat := 0

/-- `x509.ExtKeyUsageServerAuth`. -/
def extKeyUsageServerAuth : Nat := 1

/-- An RSA public key, identified by the id of the key pair it belongs to. -/
structure PublicKey where
  keyId : Nat
deriving DecidableEq

/-- An RSA private key (`*rsa.PrivateKey`). -/
structure RSAPrivateKey where
  keyId : Nat
deriving DecidableEq

/-- `key.Public()`. -/
def RSAPrivateKey.publicKey (k : RSAPrivateKey) : PublicKey :=
  ⟨k.keyId⟩

/-- A parsed `x509.Certificate`: exactly the template fields the source sets,
plus what `x509.CreateCertificate` adds (subject public key, signature key,
issuer taken from the parent certificate). -/
structure Certificate where
  serialNumber : Int
  commonName : String
  organization : List String
  dnsNames : List String
  notBefore : Int
  notAfter : Int
  keyUsage : Nat
  extKeyUsage : List Nat
  basicConstraintsValid : Bool
  isCA : Bool
  pubKey : PublicKey
  sigKey : PublicKey
  issuerCN : String
deriving DecidableEq

/-- DER-encoded bytes: either bytes that parse as a certificate, as a PKCS#1
private key, as a PKCS#8 private key, or junk that parses as neither. -/
inductive Der where
  | cert (c : Certificate)
  | keyPKCS1 (k : RSAPrivateKey)
  | keyPKCS8 (k : RSAPrivateKey)
  | junk (n : Nat)
deriving DecidableEq

/-- One textual line of a byte blob, at the granularity `pem.Decode` cares
about: a `-----BEGIN ty-----` line, a base64 payload, a `-----END ty-----`
line, or any other line. -/
inductive Token where
  | beginMarker (ty : String)
  | payload (d : Der)
  | endMarker (ty : String)
  | junkLine (n : Nat)
deriving DecidableEq

/-- A `[]byte` blob. `[]` is the empty/nil slice. -/
abbrev Blob := List Token

/-- A well-formed PEM block of type `ty` holding DER bytes `d`
(what `pem.Encode` emits). -/
def wrapPem (ty : String) (d : Der) : Blob :=
  [Token.beginMarker ty, Token.payload d, Token.endMarker ty]

/-- All well-formed PEM blocks of a blob, in order (repeated `pem.Decode`). -/
def pemDecodeAll : Blob → List (String × Der)
  | Token.beginMarker ty :: Token.payload d :: Token.endMarker ty2 :: rest =>
      if ty = ty2 then (ty, d) :: pemDecodeAll rest else pemDecodeAll rest
  | _ :: rest => pemDecodeAll rest
  | [] => []

/-- `pem.Decode`: the first well-formed PEM block, or `none` when the blob
holds no decodable block. -/
def pemDecode (b : Blob) : Option (String × Der) :=
  (pemDecodeAll b).head?

/-- `x509.ParseCertificate`. -/
def parseCertificate : Der → Option Certificate
  | Der.cert c => some c
  | _ => none

/-- `x509.ParsePKCS1PrivateKey`. -/
def parsePKCS1PrivateKey : Der → Option RSAPrivateKey
  | Der.keyPKCS1 k => some k
  | _ => none

/-- The private-key parsing of `tls.X509KeyPair` (PKCS#1, then PKCS#8). -/
def parseAnyPrivateKey : Der → Option RSAPrivateKey
  | Der.keyPKCS1 k => some k
  | Der.keyPKCS8 k => some k
  | _ => none

/-- The block-type test `tls.X509KeyPair` uses to find the key block:
`Type == "PRIVATE KEY" || strings.HasSuffix(Type, " PRIVATE KEY")`
(the suffix test is spelled on the character lists so that it reduces). -/
def isPrivateKeyBlockType (ty : String) : Bool :=
  ty == "PRIVATE KEY" || (" PRIVATE KEY").data.isSuffixOf ty.data

/-- `tls.X509KeyPair(cert, key)`: find the first CERTIFICATE block and the
first private-key block, parse both, and require the private key to match the
certificate public key. -/
def x509KeyPair (certB keyB : Blob) : Except String (Certificate × RSAPrivateKey) :=
  match ((pemDecodeAll certB).filter fun p => p.1 == "CERTIFICATE").head? with
  | none => .error "tls: failed to find any PEM data in certificate input"
  | some (_, certDer) =>
    match ((pemDecodeAll keyB).filter fun p => isPrivateKeyBlockType p.1).head? with
    | none => .error "tls: failed to find any PEM data in key input"
    | some (_, keyDer) =>
      match parseCertificate certDer with
      | none => .error "tls: failed to parse certificate"
      | some c =>
        match parseAnyPrivateKey keyDer with
        | none => .error "tls: failed to parse private key"
        | some k =>
          if c.pubKey = k.publicKey then .ok (c, k)
          else .error "tls: private key does not match public key"

/-- Validity window check `x509` performs on every certificate of a chain. -/
def certTimeOk (c : Certificate) (t : Int) : Bool :=
  decide (c.notBefore ≤ t) && decide (t ≤ c.notAfter)

/-- The checks `x509` chain building applies to a candidate issuing
certificate: Go rejects a parent that is explicitly marked non-CA
(`BasicConstraintsValid && !IsCA`) and a parent whose key usage is set but
lacks the certificate-sign bit (the certificate version is not modelled, so
a parent without the BasicConstraints extension is accepted, as for legacy
certificates in Go). -/
def canSignFrom (root : Certificate) : Bool :=
  (!root.basicConstraintsValid || root.isCA) &&
    (decide (root.keyUsage = 0) || decide (root.keyUsage &&& keyUsageCertSign ≠ 0))

/-- A one-step issuer link from `leaf` to the candidate parent `root` at time
`t`: `root` passes the candidate-parent checks, its subject matches `leaf`'s
issuer, its key signed `leaf`, and it is inside its own validity window. -/
def chainsToRoot (leaf root : Certificate) (t : Int) : Bool :=
  canSignFrom root && decide (leaf.issuerCN = root.commonName) &&
    decide (leaf.sigKey = root.pubKey) && certTimeOk root t

/-- One certificate's contribution to `checkChainForKeyUsage` for the
requested usage list `[ExtKeyUsageServerAuth]` (what `VerifyOptions` defaults
to in `ValidCert`, which sets no `KeyUsages`): a certificate with no extended
key usage is unconstrained; otherwise its list must name `ExtKeyUsageAny` or
`ExtKeyUsageServerAuth`. -/
def certAllowsServerAuth (c : Certificate) : Bool :=
  c.extKeyUsage.isEmpty || c.extKeyUsage.contains extKeyUsageAny
    || c.extKeyUsage.contains extKeyUsageServerAuth

/-- `checkChainForKeyUsage(chain, [ExtKeyUsageServerAuth])`: every
certificate of the chain must allow server authentication. -/
def checkChainForKeyUsage (chain : List Certificate) : Bool :=
  !chain.isEmpty && chain.all certAllowsServerAuth

/-- The candidate chains `x509.Certificate.Verify` builds: when the leaf is
itself in the roots pool, the single chain `[leaf]` (the self-membership
shortcut, which skips chain building entirely); otherwise one chain
`[leaf, root]` per pool member that passes the candidate-parent checks. -/
def candidateChains (pool : List Certificate) (leaf : Certificate) (t : Int) :
    List (List Certificate) :=
  if decide (leaf ∈ pool) then [[leaf]]
  else (pool.filter fun root => chainsToRoot leaf root t).map fun root => [leaf, root]

/-- `crt.Verify(x509.VerifyOptions{DNSName, Roots, CurrentTime})`:
`none` on success, `some msg` on verification failure.  Checks, in Go's
order: the leaf's validity window, the DNS name, chain building (with the
roots-pool self-membership shortcut), and finally the extended-key-usage
filter over the candidate chains with the defaulted `[ExtKeyUsageServerAuth]`
(rejecting with `IncompatibleUsage` when no candidate chain survives). -/
def verifyChain (pool : List Certificate) (leaf : Certificate) (dnsName : String)
    (t : Int) : Option String :=
  if !certTimeOk leaf t then
    some "x509: certificate has expired or is not yet valid"
  else if !(decide (dnsName ∈ leaf.dnsNames)) then
    some "x509: certificate is valid for a different name"
  else if (candidateChains pool leaf t).isEmpty then
    some "x509: certificate signed by unknown authority"
  else if (candidateChains pool leaf t).any checkChainForKeyUsage then
    none
  else
    some "x509: certificate specifies an incompatible key usage"

/-- `ValidCert(caCert, cert, key, dnsName, at)`, returning the Go pair
`(bool, error)` as `Bool × Option String`.  Note the source quirk kept here:
when `tls.X509KeyPair` succeeded but `pem.Decode(cert)` finds no block, the
source returns `false` with the *nil* error of the preceding call. -/
def ValidCert (caCert cert key : Blob) (dnsName : String) (t : Int) :
    Bool × Option String :=
  if caCert.isEmpty || cert.isEmpty || key.isEmpty then
    (false, some "empty cert")
  else
    match pemDecode caCert with
    | none => (false, some "bad CA cert")
    | some (_, caDer) =>
      match parseCertificate caDer with
      | none => (false, some "x509: malformed certificate")
      | some cac =>
        match x509KeyPair cert key with
        | .error e => (false, some e)
        | .ok _ =>
          match pemDecode cert with
          | none => (false, none)
          | some (_, der) =>
            match parseCertificate der with
            | none => (false, some "x509: malformed certificate")
            | some crt =>
              match verifyChain [cac] crt dnsName t with
              | some e => (false, some e)
              | none => (true, none)

/-- `lookaheadTime()` with the impure `time.Now()` passed explicitly. -/
def lookaheadTime (now : Int) : Int :=
  now + lookaheadInterval

/-- The `Reconciler` fields the certificate engine reads. -/
structure Config where
  caName : String
  caOrganization : String
  dnsName : String
  restartOnSecretRefresh : Bool
deriving DecidableEq

/-- `(r *Reconciler) validServerCert`: swallow the error into `false`. -/
def validServerCert (cfg : Config) (caCert cert key : Blob) (now : Int) : Bool :=
  match ValidCert caCert cert key cfg.dnsName (lookaheadTime now) with
  | (valid, none) => valid
  | (_, some _) => false

/-- `(r *Reconciler) validCACert`: the CA certificate is checked against
itself, with the CA name as the expected DNS name. -/
def validCACert (cfg : Config) (cert key : Blob) (now : Int) : Bool :=
  match ValidCert cert cert key cfg.caName (lookaheadTime now) with
  | (valid, none) => valid
  | (_, some _) => false

/-- `KeyPairArtifacts`. -/
structure KeyPairArtifacts where
  cert : Certificate
  key : RSAPrivateKey
  certPEM : Blob
  keyPEM : Blob
deriving DecidableEq

/-- The four data entries of the cert secret (`ca.crt`, `ca.key`, `tls.crt`,
`tls.key`); `none` models an absent map key. -/
structure SecretData where
  caCrt : Option Blob
  caKey : Option Blob
  tlsCrt : Option Blob
  tlsKey : Option Blob
deriving DecidableEq

/-- A `corev1.Secret`; `data = none` models a nil `Data` map. -/
structure Secret where
  data : Option SecretData
deriving DecidableEq

/-- `secret.Data[name]`: indexing a nil map or an absent key yields the nil
(empty) slice. -/
def Secret.blobOf (s : Secret) (f : SecretData → Option Blob) : Blob :=
  match s.data with
  | none => []
  | some d => (f d).getD []

/-- `populateSecret`: write all four blobs (creating the map if nil). -/
def populateSecret (cert key : Blob) (caArtifacts : KeyPairArtifacts)
    (_secret : Secret) : SecretData :=
  { caCrt := some caArtifacts.certPEM
    caKey := some caArtifacts.keyPEM
    tlsCrt := some cert
    tlsKey := some key }

/-- `pemEncode(certificateDER, key)`: armor the certificate DER as a
`CERTIFICATE` block and `x509.MarshalPKCS1PrivateKey(key)` as an
`RSA PRIVATE KEY` block.  Total: the only Go failure mode is a write error on
a `bytes.Buffer`, which cannot occur. -/
def pemEncode (certificateDER : Der) (key : RSAPrivateKey) : Blob × Blob :=
  (wrapPem "CERTIFICATE" certificateDER,
    wrapPem "RSA PRIVATE KEY" (Der.keyPKCS1 key))

/-- `x509.CreateCertificate(rand, templ, parent, pub, priv)`: the new
certificate carries the template fields, the supplied public key, the
signer's key, and the parent's subject as issuer. -/
def createCertificate (templ parent : Certificate) (pub : PublicKey)
    (signer : RSAPrivateKey) : Certificate :=
  { templ with pubKey := pub, sigKey := signer.publicKey, issuerCN := parent.commonName }

/-- `(r *Reconciler) CreateCACert(begin, end)` with the freshly generated RSA
key passed explicitly.  Total: RNG and signing failures are modelled as
impossible. -/
def CreateCACert (cfg : Config) (b e : Int) (key : RSAPrivateKey) : KeyPairArtifacts :=
  let templ : Certificate :=
    { serialNumber := 0
      commonName := cfg.caName
      organization := [cfg.caOrganization]
      dnsNames := [cfg.caName]
      notBefore := b
      notAfter := e
      keyUsage := keyUsageDigitalSignature ||| keyUsageKeyEncipherment ||| keyUsageCertSign
      extKeyUsage := []
      basicConstraintsValid := true
      isCA := true
      pubKey := ⟨0⟩
      sigKey := ⟨0⟩
      issuerCN := "" }
  let cert := createCertificate templ templ key.publicKey key
  let pems := pemEncode (Der.cert cert) key
  { cert := cert, key := key, certPEM := pems.1, keyPEM := pems.2 }

/-- `(r *Reconciler) CreateCertPEM(ca, begin, end)` with the freshly generated
RSA key passed explicitly. -/
def CreateCertPEM (cfg : Config) (ca : KeyPairArtifacts) (b e : Int)
    (key : RSAPrivateKey) : Blob × Blob :=
  let templ : Certificate :=
    { serialNumber := 1
      commonName := cfg.dnsName
      organization := []
      dnsNames := [cfg.dnsName]
      notBefore := b
      notAfter := e
      keyUsage := keyUsageDigitalSignature ||| keyUsageKeyEncipherment
      extKeyUsage := [extKeyUsageServerAuth]
      basicConstraintsValid := true
      isCA := false
      pubKey := ⟨0⟩
      sigKey := ⟨0⟩
      issuerCN := "" }
  let cert := createCertificate templ ca.cert key.publicKey ca.key
  pemEncode (Der.cert cert) key

/-- Result of `buildArtifactsFromSecret`.  `nilNil` is the source branch
`keyDer == nil` that returns `(nil, err)` with `err` still nil from the
preceding successful `ParseCertificate` — i.e. Go returns `(nil, nil)`. -/
inductive BuildResult where
  | ok (a : KeyPairArtifacts)
  | err (e : String)
  | nilNil
deriving DecidableEq

/-- `buildArtifactsFromSecret(secret)`: re-derive the CA artifacts by parsing
the stored `ca.crt`/`ca.key` PEM blobs. -/
def buildArtifactsFromSecret (secret : Secret) : BuildResult :=
  match (match secret.data with | none => none | some d => d.caCrt) with
  | none => .err "cert secret is not well-formed, missing ca.crt"
  | some caPem =>
    match (match secret.data with | none => none | some d => d.caKey) with
    | none => .err "cert secret is not well-formed, missing ca.key"
    | some keyPem =>
      match pemDecode caPem with
      | none => .err "bad CA cert"
      | some (_, caDer) =>
        match parseCertificate caDer with
        | none => .err "x509: malformed certificate"
        | some caCert =>
          match pemDecode keyPem with
          | none => .nilNil
          | some (_, keyDer) =>
            match parsePKCS1PrivateKey keyDer with
            | none => .err "asn1: structure error in PKCS1 private key"
            | some key =>
              .ok { cert := caCert, key := key, certPEM := caPem, keyPEM := keyPem }

/-- Result of `refreshCerts`: the new secret data on success (the one save
payload `writeSecret` hands to the store), an error, or a crash (the nil
dereference that follows `buildArtifactsFromSecret` returning `(nil, nil)`). -/
inductive RefreshResult where
  | ok (d : SecretData)
  | err (e : String)
  | panicked
deriving DecidableEq

/-- `(r *Reconciler) refreshCerts(refreshCA, secret)`: window
`now-1h .. now+certValidityDuration`; mint or rebuild the CA, mint the leaf,
then `writeSecret` (= `populateSecret` + one store `Update`). -/
def refreshCerts (cfg : Config) (refreshCA : Bool) (now : Int)
    (kCA kLeaf : RSAPrivateKey) (secret : Secret) : RefreshResult :=
  let b := now - hourSec
  let e := now + certValidityDuration
  match (if refreshCA then BuildResult.ok (CreateCACert cfg b e kCA)
         else buildArtifactsFromSecret secret) with
  | .err msg => .err msg
  | .nilNil => .panicked
  | .ok caArtifacts =>
    let pems := CreateCertPEM cfg caArtifacts b e kLeaf
    .ok (populateSecret pems.1 pems.2 caArtifacts secret)

/-- Observable outcome of one `refreshCertIfNeeded` pass: the Go return pair
`(need, err)`, the (possibly updated) secret, every save payload handed to the
store, whether `os.Exit(0)` ran, and whether the process crashed. -/
structure PassResult where
  need : Bool
  err : Option String
  secret : Secret
  saves : List SecretData
  exited : Bool
  crashed : Bool
deriving DecidableEq

/-- `(r *Reconciler) refreshCertIfNeeded(secret)`.  Note the source behavior:
a `refreshCerts` failure is swallowed — the pass returns `(false, nil)`. -/
def refreshCertIfNeeded (cfg : Config) (now : Int) (kCA kLeaf : RSAPrivateKey)
    (secret : Secret) : PassResult :=
  if secret.data.isNone
      || !(validCACert cfg (secret.blobOf SecretData.caCrt)
            (secret.blobOf SecretData.caKey) now) then
    match refreshCerts cfg true now kCA kLeaf secret with
    | .err _ => ⟨false, none, secret, [], false, false⟩
    | .panicked => ⟨false, none, secret, [], false, true⟩
    | .ok d => ⟨true, none, ⟨some d⟩, [d], cfg.restartOnSecretRefresh, false⟩
  else if !(validServerCert cfg (secret.blobOf SecretData.caCrt)
      (secret.blobOf SecretData.tlsCrt) (secret.blobOf SecretData.tlsKey) now) then
    match refreshCerts cfg false now kCA kLeaf secret with
    | .err _ => ⟨false, none, secret, [], false, false⟩
    | .panicked => ⟨false, none, secret, [], false, true⟩
    | .ok d => ⟨true, none, ⟨some d⟩, [d], cfg.restartOnSecretRefresh, false⟩
  else
    ⟨true, none, secret, [], false, false⟩

/-- A `corev1.Service` (name and namespace). -/
structure Service where
  name : String
  ns : String
deriving DecidableEq

/-- The conversion-webhook-relevant shape of a CustomResourceDefinition. -/
structure CRD where
  clientConfigFound : Bool
  svcName : Option String
  svcNamespace : Option String
  caBundle : Option Blob
deriving DecidableEq

/-- `injectSvcToConversionWebhook`. -/
def injectSvcToConversionWebhook (crd : CRD) (svc : Service) : Except String CRD :=
  if crd.clientConfigFound then
    .ok { crd with svcName := some svc.name, svcNamespace := some svc.ns }
  else
    .error "conversion.webhook.clientConfig field not found in CustomResourceDefinition"

/-- `injectCertToConversionWebhook` (the base64 wrapping is immaterial). -/
def injectCertToConversionWebhook (crd : CRD) (certPem : Blob) : Except String CRD :=
  if crd.clientConfigFound then
    .ok { crd with caBundle := some certPem }
  else
    .error "conversion.webhook.clientConfig field not found in CustomResourceDefinition"

/-- Everything a successful `updateCRD` pass produced. -/
structure UpdateOutcome where
  crd : CRD
  secret : Secret
  saves : List SecretData
deriving DecidableEq

/-- `(r *Reconciler) updateCRD(ctx, req)` with the collaborator results passed
in: the label-selected service and secret lists, the fetched CRD, the clock
and the fresh keys.  The two list-length guards run before any certificate
work. -/
def updateCRD (cfg : Config) (now : Int) (kCA kLeaf : RSAPrivateKey)
    (svcList : List Service) (secretList : List Secret) (crd : CRD) :
    Except String UpdateOutcome :=
  if svcList.length ≠ 1 then
    .error "multiple services match labels"
  else if secretList.length ≠ 1 then
    .error "multiple secrets match labels"
  else
    match svcList, secretList with
    | [svc], [secret] =>
      match injectSvcToConversionWebhook crd svc with
      | .error e => .error e
      | .ok crd1 =>
        let cfg1 := { cfg with dnsName := svc.name ++ "." ++ svc.ns ++ ".svc" }
        let res := refreshCertIfNeeded cfg1 now kCA kLeaf secret
        if res.crashed then
          .error "panicked: invalid memory address or nil pointer dereference"
        else
          match res.err with
          | some e => .error e
          | none =>
            if res.need then
              match buildArtifactsFromSecret res.secret with
              | .err e => .error e
              | .nilNil => .error "panicked: invalid memory address or nil pointer dereference"
              | .ok artifacts =>
                match injectCertToConversionWebhook crd1 artifacts.certPEM with
                | .error e => .error e
                | .ok crd2 => .ok ⟨crd2, res.secret, res.saves⟩
            else
              .ok ⟨crd1, res.secret, res.saves⟩
    | _, _ => .error "unreachable"

/-- A concrete engine configuration. -/
def cfgW : Config := ⟨"ca", "org", "svc.ns.svc", false⟩

/-- A concrete well-formed CA certificate for key pair 1 (window
`-3600 .. 400000000` seconds). -/
def cacW : Certificate :=
  { serialNumber := 0, commonName := "ca", organization := ["org"],
    dnsNames := ["ca"], notBefore := -3600, notAfter := 400000000,
    keyUsage := 37, extKeyUsage := [], basicConstraintsValid := true,
    isCA := true, pubKey := ⟨1⟩, sigKey := ⟨1⟩, issuerCN := "ca" }

/-- A concrete leaf certificate for key pair 2, signed by `cacW`, for the
hostname `svc.ns.svc` (window `-3600 .. 315360000` seconds). -/
def leafW : Certificate :=
  { serialNumber := 1, commonName := "svc.ns.svc", organization := [],
    dnsNames := ["svc.ns.svc"], notBefore := -3600, notAfter := 315360000,
    keyUsage := 5, extKeyUsage := [1], basicConstraintsValid := true,
    isCA := false, pubKey := ⟨2⟩, sigKey := ⟨1⟩, issuerCN := "ca" }

/-- A stored bundle with a genuine CA (`cacW`) and its PKCS#1 key, but empty
leaf blobs. -/
def goodCaSecretDataW : SecretData :=
  { caCrt := some (wrapPem "CERTIFICATE" (Der.cert cacW)),
    caKey := some (wrapPem "RSA PRIVATE KEY" (Der.keyPKCS1 ⟨1⟩)),
    tlsCrt := some [], tlsKey := some [] }

/-- A stored bundle whose CA certificate is valid but whose CA key is stored
as PKCS#8: `tls.X509KeyPair` (hence `validCACert`) accepts it, while
`buildArtifactsFromSecret` (PKCS#1 only) fails on it. -/
def pkcs8SecretW : Secret :=
  ⟨some { caCrt := some (wrapPem "CERTIFICATE" (Der.cert cacW)),
          caKey := some (wrapPem "PRIVATE KEY" (Der.keyPKCS8 ⟨1⟩)),
          tlsCrt := some [], tlsKey := some [] }⟩

/-- The leaf certificate `CreateCertPEM` builds (spelled out; equal to the
source composition by `rfl`, see `CreateCertPEM_fst`). -/
def leafCertOf (cfg : Config) (a : KeyPairArtifacts) (b e : Int)
    (k : RSAPrivateKey) : Certificate :=
  { serialNumber := 1
    commonName := cfg.dnsName
    organization := []
    dnsNames := [cfg.dnsName]
    notBefore := b
    notAfter := e
    keyUsage := keyUsageDigitalSignature ||| keyUsageKeyEncipherment
    extKeyUsage := [extKeyUsageServerAuth]
    basicConstraintsValid := true
    isCA := false
    pubKey := k.publicKey
    sigKey := a.key.publicKey
    issuerCN := a.cert.commonName }

/-- The secret data written by a full CA+leaf rotation
(`refreshCerts` with `refreshCA = true`). -/
def caRotationData (cfg : Config) (now : Int) (kCA kLeaf : RSAPrivateKey)
    (secret : Secret) : SecretData :=
  populateSecret
    (CreateCertPEM cfg (CreateCACert cfg (now - hourSec) (now + certValidityDuration) kCA)
      (now - hourSec) (now + certValidityDuration) kLeaf).1
    (CreateCertPEM cfg (CreateCACert cfg (now - hourSec) (now + certValidityDuration) kCA)
      (now - hourSec) (now + certValidityDuration) kLeaf).2
    (CreateCACert cfg (now - hourSec) (now + certValidityDuration) kCA) secret

/-- The secret data written by a leaf-only rotation around the rebuilt CA
artifacts `a` (`refreshCerts` with `refreshCA = false`). -/
def leafRotationData (cfg : Config) (now : Int) (kLeaf : RSAPrivateKey)
    (a : KeyPairArtifacts) (secret : Secret) : SecretData :=
  populateSecret
    (CreateCertPEM cfg a (now - hourSec) (now + certValidityDuration) kLeaf).1
    (CreateCertPEM cfg a (now - hourSec) (now + certValidityDuration) kLeaf).2
    a secret

/-! Helper lemmas. -/

theorem pemDecodeAll_wrapPem (ty : String) (d : Der) :
    pemDecodeAll (wrapPem ty d) = [(ty, d)] := by
  simp [pemDecodeAll, wrapPem]

theorem pemDecode_wrapPem (ty : String) (d : Der) :
    pemDecode (wrapPem ty d) = some (ty, d) := by
  simp [pemDecode, pemDecodeAll_wrapPem]

theorem isPrivateKeyBlockType_rsa : isPrivateKeyBlockType "RSA PRIVATE KEY" = true := by
  decide

theorem x509KeyPair_wrapPem (c : Certificate) (k : RSAPrivateKey)
    (h : c.pubKey = k.publicKey) :
    x509KeyPair (wrapPem "CERTIFICATE" (Der.cert c))
      (wrapPem "RSA PRIVATE KEY" (Der.keyPKCS1 k)) = .ok (c, k) := by
  simp [x509KeyPair, pemDecodeAll_wrapPem, isPrivateKeyBlockType_rsa,
    parseCertificate, parseAnyPrivateKey, h]

theorem verifyChain_self_none (cac : Certificate) (dns : String) (t : Int)
    (h1 : certTimeOk cac t = true) (h2 : dns ∈ cac.dnsNames)
    (h4 : certAllowsServerAuth cac = true) :
    verifyChain [cac] cac dns t = none := by
  simp [verifyChain, candidateChains, checkChainForKeyUsage, h1, h2, h4]

theorem verifyChain_single_none (cac leaf : Certificate) (dns : String) (t : Int)
    (h1 : certTimeOk leaf t = true) (h2 : dns ∈ leaf.dnsNames)
    (h4 : certAllowsServerAuth leaf = true)
    (hpar : chainsToRoot leaf cac t = true)
    (hcaEku : certAllowsServerAuth cac = true) :
    verifyChain [cac] leaf dns t = none := by
  by_cases hmem : leaf = cac
  · subst hmem
    exact verifyChain_self_none leaf dns t h1 h2 h4
  · simp [verifyChain, candidateChains, checkChainForKeyUsage, h1, h2, h4, hmem,
      hpar, hcaEku]

/-- Claim C9: PEM round-trip — `pemEncode` is total (its only Go failure mode
is a `bytes.Buffer` write error, which cannot occur), and decoding the two
produced PEM blobs reproduces the original certificate DER bytes and, through
`x509.ParsePKCS1PrivateKey`, the original key material exactly. -/
theorem pemEncode_pemDecode_roundtrip (der : Der) (key : RSAPrivateKey) :
    pemDecode (pemEncode der key).1 = some ("CERTIFICATE", der) ∧
    ((pemDecode (pemEncode der key).2).bind fun p => parsePKCS1PrivateKey p.2)
      = some key := by
  constructor
  · simpa [pemEncode] using pemDecode_wrapPem "CERTIFICATE" der
  · simp [pemEncode, pemDecode_wrapPem, parsePKCS1PrivateKey]

/-- Claim C8: when the leaf certificate blob contains no decodable PEM block,
`ValidCert` fails: it returns `false` together with a non-nil error
(in the source the failure surfaces from the `tls.X509KeyPair` structural
check, which runs before the leaf `pem.Decode`). -/
theorem validCert_no_pem_block_fails (caCert cert key : Blob) (dnsName : String)
    (t : Int) (h : pemDecode cert = none) :
    (ValidCert caCert cert key dnsName t).1 = false ∧
    (ValidCert caCert cert key dnsName t).2.isSome = true := by
  have hall : pemDecodeAll cert = [] := by
    cases hh : pemDecodeAll cert with
    | nil => rfl
    | cons a l => rw [pemDecode, hh] at h; simp at h
  have hkp : x509KeyPair cert key =
      Except.error "tls: failed to find any PEM data in certificate input" := by
    unfold x509KeyPair
    simp [hall]
  unfold ValidCert
  split
  · exact ⟨rfl, rfl⟩
  · cases hca : pemDecode caCert with
    | none => simp
    | some p =>
      obtain ⟨ty, d⟩ := p
      cases hpc : parseCertificate d with
      | none => simp [hpc]
      | some cac => simp [hpc, hkp]

/-- Witness for C8: a nonempty leaf blob with no PEM block. -/
theorem validCert_no_pem_block_fails_witness :
    (ValidCert (wrapPem "CERTIFICATE" (Der.cert cacW)) [Token.junkLine 0]
        (wrapPem "RSA PRIVATE KEY" (Der.keyPKCS1 ⟨1⟩)) "svc.ns.svc" 0).1 = false ∧
    (ValidCert (wrapPem "CERTIFICATE" (Der.cert cacW)) [Token.junkLine 0]
        (wrapPem "RSA PRIVATE KEY" (Der.keyPKCS1 ⟨1⟩)) "svc.ns.svc" 0).2.isSome = true :=
  validCert_no_pem_block_fails (wrapPem "CERTIFICATE" (Der.cert cacW))
    [Token.junkLine 0] (wrapPem "RSA PRIVATE KEY" (Der.keyPKCS1 ⟨1⟩))
    "svc.ns.svc" 0 (by decide)

/-- Claim C10: in `updateCRD`, a service-list match count different from one
— including zero matches — aborts the pass before any certificate work with
the error message "multiple services match labels", and analogously a
secret-list match count different from one aborts with
"multiple secrets match labels". -/
theorem updateCRD_label_selector_guard (cfg : Config) (now : Int)
    (kCA kLeaf : RSAPrivateKey) (svcList : List Service)
    (secretList : List Secret) (crd : CRD) :
    (svcList.length ≠ 1 →
      updateCRD cfg now kCA kLeaf svcList secretList crd =
        .error "multiple services match labels") ∧
    (svcList.length = 1 → secretList.length ≠ 1 →
      updateCRD cfg now kCA kLeaf svcList secretList crd =
        .error "multiple secrets match labels") := by
  constructor
  · intro h
    simp [updateCRD, h]
  · intro h1 h2
    simp [updateCRD, h1, h2]

/-- Witness for C10: zero matching services, and one matching service with
zero matching secrets. -/
theorem updateCRD_label_selector_guard_witness :
    updateCRD cfgW 0 ⟨1⟩ ⟨2⟩ [] [] ⟨true, none, none, none⟩ =
      .error "multiple services match labels" ∧
    updateCRD cfgW 0 ⟨1⟩ ⟨2⟩ [⟨"svc", "ns"⟩] [] ⟨true, none, none, none⟩ =
      .error "multiple secrets match labels" :=
  ⟨(updateCRD_label_selector_guard cfgW 0 ⟨1⟩ ⟨2⟩ [] [] ⟨true, none, none, none⟩).1
      (by decide),
    (updateCRD_label_selector_guard cfgW 0 ⟨1⟩ ⟨2⟩ [⟨"svc", "ns"⟩] []
        ⟨true, none, none, none⟩).2 rfl (by decide)⟩

/-- Claim C4: `CreateCACert` returns a self-signed certificate (signature key
equal to its own key, issuer equal to its own subject) with basic-constraints
CA=true, serial number 0, key usage exactly digital signature + key
encipherment + certificate signing, subject common name and sole DNS name
equal to the configured CA name, and validity window `[begin, end]`; and when
the engine rotates the CA (`refreshCerts` with `refreshCA = true`) it issues
it for `begin = now - 1h`, `end = now + 10*365*24h`. -/
theorem createCACert_shape (cfg : Config) (b e : Int) (k : RSAPrivateKey)
    (now : Int) (kLeaf : RSAPrivateKey) (secret : Secret) :
    ((CreateCACert cfg b e k).cert.serialNumber = 0 ∧
      (CreateCACert cfg b e k).cert.isCA = true ∧
      (CreateCACert cfg b e k).cert.basicConstraintsValid = true ∧
      (CreateCACert cfg b e k).cert.keyUsage =
        (keyUsageDigitalSignature ||| keyUsageKeyEncipherment ||| keyUsageCertSign) ∧
      (CreateCACert cfg b e k).cert.commonName = cfg.caName ∧
      (CreateCACert cfg b e k).cert.dnsNames = [cfg.caName] ∧
      (CreateCACert cfg b e k).cert.notBefore = b ∧
      (CreateCACert cfg b e k).cert.notAfter = e ∧
      (CreateCACert cfg b e k).cert.pubKey = k.publicKey ∧
      (CreateCACert cfg b e k).cert.sigKey = k.publicKey ∧
      (CreateCACert cfg b e k).cert.issuerCN = (CreateCACert cfg b e k).cert.commonName) ∧
    (∃ d : SecretData,
      refreshCerts cfg true now k kLeaf secret = RefreshResult.ok d ∧
      d.caCrt = some (CreateCACert cfg (now - hourSec) (now + certValidityDuration) k).certPEM ∧
      d.caKey = some (CreateCACert cfg (now - hourSec) (now + certValidityDuration) k).keyPEM) ∧
    hourSec = 3600 ∧ certValidityDuration = 10 * 365 * 24 * hourSec := by
  exact ⟨⟨rfl, rfl, rfl, rfl, rfl, rfl, rfl, rfl, rfl, rfl, rfl⟩,
    ⟨_, rfl, rfl, rfl⟩, rfl, rfl⟩

/-- Claim C5: `CreateCertPEM` issues a leaf certificate with serial number 1,
subject common name and sole DNS name equal to the configured hostname, key
usage digital signature + key encipherment, extended key usage server
authentication, signed by the given CA's private key, and (when the CA
artifacts form a genuine CA whose extended key usage permits server
authentication and the check time lies in both validity windows) chaining to
that CA under `verifyChain`, which includes the chain-wide
`checkChainForKeyUsage` filter. -/
theorem createCertPEM_shape (cfg : Config) (ca : KeyPairArtifacts) (b e t : Int)
    (k : RSAPrivateKey)
    (hbcv : ca.cert.basicConstraintsValid = true)
    (hisCA : ca.cert.isCA = true)
    (hsign : ca.cert.keyUsage &&& keyUsageCertSign ≠ 0)
    (hpub : ca.cert.pubKey = ca.key.publicKey)
    (hwin : certTimeOk ca.cert t = true)
    (heku : certAllowsServerAuth ca.cert = true)
    (hb : b ≤ t) (he : t ≤ e) :
    ∃ c : Certificate,
      (CreateCertPEM cfg ca b e k).1 = wrapPem "CERTIFICATE" (Der.cert c) ∧
      (CreateCertPEM cfg ca b e k).2 = wrapPem "RSA PRIVATE KEY" (Der.keyPKCS1 k) ∧
      c.serialNumber = 1 ∧
      c.commonName = cfg.dnsName ∧
      c.dnsNames = [cfg.dnsName] ∧
      c.keyUsage = (keyUsageDigitalSignature ||| keyUsageKeyEncipherment) ∧
      c.extKeyUsage = [extKeyUsageServerAuth] ∧
      c.isCA = false ∧
      c.pubKey = k.publicKey ∧
      c.sigKey = ca.key.publicKey ∧
      c.issuerCN = ca.cert.commonName ∧
      c.notBefore = b ∧ c.notAfter = e ∧
      verifyChain [ca.cert] c cfg.dnsName t = none := by
  refine ⟨_, rfl, rfl, rfl, rfl, rfl, rfl, rfl, rfl, rfl, rfl, rfl, rfl, rfl, ?_⟩
  refine verifyChain_single_none ca.cert _ cfg.dnsName t ?_ ?_ ?_ ?_ heku
  · show certTimeOk (createCertificate _ ca.cert k.publicKey ca.key) t = true
    simp only [certTimeOk, createCertificate]
    simp only [Bool.and_eq_true, decide_eq_true_eq]
    exact ⟨hb, he⟩
  · show cfg.dnsName ∈ (createCertificate _ ca.cert k.publicKey ca.key).dnsNames
    simp [createCertificate]
  · show certAllowsServerAuth (createCertificate _ ca.cert k.publicKey ca.key) = true
    rfl
  · show chainsToRoot (createCertificate _ ca.cert k.publicKey ca.key) ca.cert t = true
    unfold chainsToRoot canSignFrom createCertificate
    simp [hbcv, hisCA, hsign, hwin, hpub]

/-- Witness for C5: a concrete CA artifact set, leaf window
`-3600 .. 315360000`, check time 0. -/
theorem createCertPEM_shape_witness :
    ∃ c : Certificate,
      (CreateCertPEM cfgW (CreateCACert cfgW (-3600) 400000000 ⟨1⟩) (-3600) 315360000 ⟨2⟩).1
        = wrapPem "CERTIFICATE" (Der.cert c) ∧
      (CreateCertPEM cfgW (CreateCACert cfgW (-3600) 400000000 ⟨1⟩) (-3600) 315360000 ⟨2⟩).2
        = wrapPem "RSA PRIVATE KEY" (Der.keyPKCS1 ⟨2⟩) ∧
      c.serialNumber = 1 ∧
      c.commonName = cfgW.dnsName ∧
      c.dnsNames = [cfgW.dnsName] ∧
      c.keyUsage = (keyUsageDigitalSignature ||| keyUsageKeyEncipherment) ∧
      c.extKeyUsage = [extKeyUsageServerAuth] ∧
      c.isCA = false ∧
      c.pubKey = RSAPrivateKey.publicKey ⟨2⟩ ∧
      c.sigKey = RSAPrivateKey.publicKey ⟨1⟩ ∧
      c.issuerCN = (CreateCACert cfgW (-3600) 400000000 ⟨1⟩).cert.commonName ∧
      c.notBefore = -3600 ∧ c.notAfter = 315360000 ∧
      verifyChain [(CreateCACert cfgW (-3600) 400000000 ⟨1⟩).cert] c cfgW.dnsName 0 = none :=
  createCertPEM_shape cfgW (CreateCACert cfgW (-3600) 400000000 ⟨1⟩)
    (-3600) 315360000 0 ⟨2⟩ rfl rfl (by decide) rfl (by decide) rfl (by decide) (by decide)

theorem lookaheadTime_eq (t : Int) : lookaheadTime t = t + 7776000 := by
  norm_num [lookaheadTime, lookaheadInterval, hourSec]

theorem wrapPem_isEmpty (ty : String) (d : Der) : (wrapPem ty d).isEmpty = false := rfl

theorem ValidCert_wrapped (cac leaf : Certificate) (k : RSAPrivateKey)
    (dns : String) (t : Int) (hpk : leaf.pubKey = k.publicKey) :
    ValidCert (wrapPem "CERTIFICATE" (Der.cert cac))
      (wrapPem "CERTIFICATE" (Der.cert leaf))
      (wrapPem "RSA PRIVATE KEY" (Der.keyPKCS1 k)) dns t =
      (match verifyChain [cac] leaf dns t with
        | some e => (false, some e)
        | none => (true, none)) := by
  cases hv : verifyChain [cac] leaf dns t with
  | none =>
    unfold ValidCert
    simp [wrapPem_isEmpty, pemDecode_wrapPem, parseCertificate,
      x509KeyPair_wrapPem _ _ hpk, hv]
  | some e =>
    unfold ValidCert
    simp [wrapPem_isEmpty, pemDecode_wrapPem, parseCertificate,
      x509KeyPair_wrapPem _ _ hpk, hv]

theorem validServerCert_wrapped_eval (cfg : Config) (cac leaf : Certificate)
    (k : RSAPrivateKey) (t : Int) (hpk : leaf.pubKey = k.publicKey) :
    validServerCert cfg (wrapPem "CERTIFICATE" (Der.cert cac))
      (wrapPem "CERTIFICATE" (Der.cert leaf))
      (wrapPem "RSA PRIVATE KEY" (Der.keyPKCS1 k)) t =
      (verifyChain [cac] leaf cfg.dnsName (lookaheadTime t)).isNone := by
  unfold validServerCert
  rw [ValidCert_wrapped cac leaf k cfg.dnsName (lookaheadTime t) hpk]
  cases hv : verifyChain [cac] leaf cfg.dnsName (lookaheadTime t) <;> simp

/-- Claim C1: for a structurally valid signed chain (CA/leaf/key blobs that
parse, key matching the leaf, leaf signed and issued by the genuine CA,
hostname among the leaf's DNS names, both certificates' extended key usages
permitting server authentication per `checkChainForKeyUsage`, CA window
covering the lookahead instant), the engine's effective server-certificate
check — `validServerCert` evaluating `ValidCert` at
`lookaheadTime(now) = now + 90 days` — returns true whenever `now` lies in
the leaf's validity window shrunk by the 90-day lookahead margin, and
returns false whenever `now` is within the lookahead margin of the leaf's
`NotAfter`, forcing proactive rotation. -/
theorem validServerCert_lookahead_margin (cfg : Config) (cac leaf : Certificate)
    (k : RSAPrivateKey) (t : Int)
    (hpk : leaf.pubKey = k.publicKey)
    (hsig : leaf.sigKey = cac.pubKey)
    (hiss : leaf.issuerCN = cac.commonName)
    (hbcv : cac.basicConstraintsValid = true)
    (hisCA : cac.isCA = true)
    (hsign : cac.keyUsage &&& keyUsageCertSign ≠ 0)
    (hdns : cfg.dnsName ∈ leaf.dnsNames)
    (hekuL : certAllowsServerAuth leaf = true)
    (hekuCA : certAllowsServerAuth cac = true)
    (hcaWin : cac.notBefore ≤ lookaheadTime t ∧ lookaheadTime t ≤ cac.notAfter) :
    (leaf.notBefore ≤ t → lookaheadTime t ≤ leaf.notAfter →
      validServerCert cfg (wrapPem "CERTIFICATE" (Der.cert cac))
        (wrapPem "CERTIFICATE" (Der.cert leaf))
        (wrapPem "RSA PRIVATE KEY" (Der.keyPKCS1 k)) t = true) ∧
    (leaf.notAfter - lookaheadInterval < t →
      validServerCert cfg (wrapPem "CERTIFICATE" (Der.cert cac))
        (wrapPem "CERTIFICATE" (Der.cert leaf))
        (wrapPem "RSA PRIVATE KEY" (Der.keyPKCS1 k)) t = false) := by
  constructor
  · intro h1 h2
    rw [validServerCert_wrapped_eval cfg cac leaf k t hpk]
    have htime : certTimeOk leaf (lookaheadTime t) = true := by
      simp only [certTimeOk, Bool.and_eq_true, decide_eq_true_eq]
      have := lookaheadTime_eq t
      omega
    have hpar : chainsToRoot leaf cac (lookaheadTime t) = true := by
      unfold chainsToRoot canSignFrom
      simp [hbcv, hisCA, hsign, hiss, hsig, certTimeOk, hcaWin.1, hcaWin.2]
    rw [verifyChain_single_none cac leaf cfg.dnsName (lookaheadTime t)
      htime hdns hekuL hpar hekuCA]
    rfl
  · intro h3
    rw [validServerCert_wrapped_eval cfg cac leaf k t hpk]
    have htime : certTimeOk leaf (lookaheadTime t) = false := by
      have hla := lookaheadTime_eq t
      have hli : lookaheadInterval = 7776000 := by
        norm_num [lookaheadInterval, hourSec]
      simp only [certTimeOk, Bool.and_eq_false_iff, decide_eq_false_iff_not]
      right
      omega
    unfold verifyChain
    simp [htime]

/-- Witness for C1: the concrete chain `cacW`/`leafW` with key pair 2; the
check returns true at time 0 (more than 90 days of leaf validity left) and
false at time 310000000 (within 90 days of the leaf's NotAfter). -/
theorem validServerCert_lookahead_margin_witness :
    validServerCert cfgW (wrapPem "CERTIFICATE" (Der.cert cacW))
      (wrapPem "CERTIFICATE" (Der.cert leafW))
      (wrapPem "RSA PRIVATE KEY" (Der.keyPKCS1 ⟨2⟩)) 0 = true ∧
    validServerCert cfgW (wrapPem "CERTIFICATE" (Der.cert cacW))
      (wrapPem "CERTIFICATE" (Der.cert leafW))
      (wrapPem "RSA PRIVATE KEY" (Der.keyPKCS1 ⟨2⟩)) 310000000 = false :=
  ⟨(validServerCert_lookahead_margin cfgW cacW leafW ⟨2⟩ 0 rfl rfl rfl rfl rfl
      (by decide) (by decide) (by decide) (by decide) (by decide)).1 (by decide) (by decide),
    (validServerCert_lookahead_margin cfgW cacW leafW ⟨2⟩ 310000000 rfl rfl rfl rfl rfl
      (by decide) (by decide) (by decide) (by decide) (by decide)).2 (by decide)⟩

theorem parseCertificate_eq_some {d : Der} {c : Certificate}
    (h : parseCertificate d = some c) : d = Der.cert c := by
  cases d with
  | cert c2 => simp [parseCertificate] at h; rw [h]
  | keyPKCS1 k => simp [parseCertificate] at h
  | keyPKCS8 k => simp [parseCertificate] at h
  | junk n => simp [parseCertificate] at h

theorem buildArtifacts_data_none {secret : Secret} (hd : secret.data = none) :
    buildArtifactsFromSecret secret =
      .err "cert secret is not well-formed, missing ca.crt" := by
  unfold buildArtifactsFromSecret
  simp [hd]

theorem buildArtifacts_caCrt_none {secret : Secret} {d0 : SecretData}
    (hd : secret.data = some d0) (h1 : d0.caCrt = none) :
    buildArtifactsFromSecret secret =
      .err "cert secret is not well-formed, missing ca.crt" := by
  unfold buildArtifactsFromSecret
  simp [hd, h1]

theorem buildArtifacts_caKey_none {secret : Secret} {d0 : SecretData} {caPem : Blob}
    (hd : secret.data = some d0) (h1 : d0.caCrt = some caPem) (h2 : d0.caKey = none) :
    buildArtifactsFromSecret secret =
      .err "cert secret is not well-formed, missing ca.key" := by
  unfold buildArtifactsFromSecret
  simp [hd, h1, h2]

theorem buildArtifacts_eval {secret : Secret} {d0 : SecretData} {caPem keyPem : Blob}
    (hd : secret.data = some d0) (h1 : d0.caCrt = some caPem)
    (h2 : d0.caKey = some keyPem) :
    buildArtifactsFromSecret secret =
      (match pemDecode caPem with
        | none => .err "bad CA cert"
        | some (_, caDer) =>
          match parseCertificate caDer with
          | none => .err "x509: malformed certificate"
          | some caCert =>
            match pemDecode keyPem with
            | none => .nilNil
            | some (_, keyDer) =>
              match parsePKCS1PrivateKey keyDer with
              | none => .err "asn1: structure error in PKCS1 private key"
              | some key =>
                .ok { cert := caCert, key := key, certPEM := caPem, keyPEM := keyPem }) := by
  unfold buildArtifactsFromSecret
  simp [hd, h1, h2]

theorem build_ok_elim {secret : Secret} {a : KeyPairArtifacts}
    (h : buildArtifactsFromSecret secret = .ok a) :
    ∃ d0 ty ty2 kd, secret.data = some d0 ∧
      d0.caCrt = some a.certPEM ∧ d0.caKey = some a.keyPEM ∧
      pemDecode a.certPEM = some (ty, Der.cert a.cert) ∧
      pemDecode a.keyPEM = some (ty2, kd) ∧
      parsePKCS1PrivateKey kd = some a.key := by
  rcases hd : secret.data with _ | d0
  · simp [buildArtifacts_data_none hd] at h
  rcases h1 : d0.caCrt with _ | caPem
  · simp [buildArtifacts_caCrt_none hd h1] at h
  rcases h2 : d0.caKey with _ | keyPem
  · simp [buildArtifacts_caKey_none hd h1 h2] at h
  rw [buildArtifacts_eval hd h1 h2] at h
  rcases hdec : pemDecode caPem with _ | p
  · simp [hdec] at h
  obtain ⟨ty, caDer⟩ := p
  simp only [hdec] at h
  rcases hpc : parseCertificate caDer with _ | cac
  · simp [hpc] at h
  simp only [hpc] at h
  rcases hkdec : pemDecode keyPem with _ | p2
  · simp [hkdec] at h
  obtain ⟨ty2, kd⟩ := p2
  simp only [hkdec] at h
  rcases hpk : parsePKCS1PrivateKey kd with _ | key
  · simp [hpk] at h
  simp only [hpk] at h
  obtain rfl : ({ cert := cac, key := key, certPEM := caPem, keyPEM := keyPem } :
      KeyPairArtifacts) = a := by
    cases h
    rfl
  exact ⟨d0, ty, ty2, kd, rfl, h1, h2, (parseCertificate_eq_some hpc) ▸ hdec, hkdec, hpk⟩

theorem refreshCerts_true_eq (cfg : Config) (now : Int) (kCA kLeaf : RSAPrivateKey)
    (secret : Secret) :
    refreshCerts cfg true now kCA kLeaf secret =
      RefreshResult.ok (caRotationData cfg now kCA kLeaf secret) := rfl

theorem refreshCerts_false_ok {secret : Secret} {a : KeyPairArtifacts}
    (cfg : Config) (now : Int) (kCA kLeaf : RSAPrivateKey)
    (h : buildArtifactsFromSecret secret = .ok a) :
    refreshCerts cfg false now kCA kLeaf secret =
      RefreshResult.ok (leafRotationData cfg now kLeaf a secret) := by
  unfold refreshCerts
  simp [h, leafRotationData]

theorem refreshCerts_false_err {secret : Secret} {msg : String}
    (cfg : Config) (now : Int) (kCA kLeaf : RSAPrivateKey)
    (h : buildArtifactsFromSecret secret = .err msg) :
    refreshCerts cfg false now kCA kLeaf secret = RefreshResult.err msg := by
  unfold refreshCerts
  simp [h]

theorem refreshCerts_false_panicked {secret : Secret}
    (cfg : Config) (now : Int) (kCA kLeaf : RSAPrivateKey)
    (h : buildArtifactsFromSecret secret = .nilNil) :
    refreshCerts cfg false now kCA kLeaf secret = RefreshResult.panicked := by
  unfold refreshCerts
  simp [h]

theorem refreshCertIfNeeded_ca_rotate (cfg : Config) (now : Int)
    (kCA kLeaf : RSAPrivateKey) (secret : Secret)
    (hA : (secret.data.isNone
        || !(validCACert cfg (secret.blobOf SecretData.caCrt)
              (secret.blobOf SecretData.caKey) now)) = true) :
    refreshCertIfNeeded cfg now kCA kLeaf secret =
      ⟨true, none, ⟨some (caRotationData cfg now kCA kLeaf secret)⟩,
        [caRotationData cfg now kCA kLeaf secret],
        cfg.restartOnSecretRefresh, false⟩ := by
  unfold refreshCertIfNeeded
  rw [if_pos hA, refreshCerts_true_eq]

theorem refreshCertIfNeeded_leaf_cond (cfg : Config) (now : Int)
    (kCA kLeaf : RSAPrivateKey) (secret : Secret) (d0 : SecretData)
    (hd : secret.data = some d0)
    (hCA : validCACert cfg (secret.blobOf SecretData.caCrt)
      (secret.blobOf SecretData.caKey) now = true)
    (hSrv : validServerCert cfg (secret.blobOf SecretData.caCrt)
      (secret.blobOf SecretData.tlsCrt) (secret.blobOf SecretData.tlsKey) now = false) :
    refreshCertIfNeeded cfg now kCA kLeaf secret =
      (match refreshCerts cfg false now kCA kLeaf secret with
        | .err _ => ⟨false, none, secret, [], false, false⟩
        | .panicked => ⟨false, none, secret, [], false, true⟩
        | .ok d => ⟨true, none, ⟨some d⟩, [d], cfg.restartOnSecretRefresh, false⟩) := by
  unfold refreshCertIfNeeded
  rw [if_neg (by simp [hd, hCA]), if_pos (by simp [hSrv])]

theorem refreshCertIfNeeded_noop (cfg : Config) (now : Int)
    (kCA kLeaf : RSAPrivateKey) (secret : Secret) (d0 : SecretData)
    (hd : secret.data = some d0)
    (hCA : validCACert cfg (secret.blobOf SecretData.caCrt)
      (secret.blobOf SecretData.caKey) now = true)
    (hSrv : validServerCert cfg (secret.blobOf SecretData.caCrt)
      (secret.blobOf SecretData.tlsCrt) (secret.blobOf SecretData.tlsKey) now = true) :
    refreshCertIfNeeded cfg now kCA kLeaf secret =
      ⟨true, none, secret, [], false, false⟩ := by
  unfold refreshCertIfNeeded
  rw [if_neg (by simp [hd, hCA]), if_neg (by simp [hSrv])]

theorem not_ca_branch_elim {cfg : Config} {secret : Secret} {now : Int}
    (hA : ¬(secret.data.isNone
        || !(validCACert cfg (secret.blobOf SecretData.caCrt)
              (secret.blobOf SecretData.caKey) now)) = true) :
    (∃ d0, secret.data = some d0) ∧
    validCACert cfg (secret.blobOf SecretData.caCrt)
      (secret.blobOf SecretData.caKey) now = true := by
  constructor
  · cases hz : secret.data with
    | none => exact absurd (by simp [hz]) hA
    | some d0 => exact ⟨d0, rfl⟩
  · cases hy : validCACert cfg (secret.blobOf SecretData.caCrt)
        (secret.blobOf SecretData.caKey) now with
    | true => rfl
    | false => exact absurd (by simp [hy]) hA

/-- Claim C7 (amended): when CA reconstruction from the stored PEM blobs
fails during an attempted leaf-only rotation, the pass is aborted for this
cycle with the stored artifacts untouched and no store write — but the
failure is *swallowed*, not reported upward: `refreshCertIfNeeded` returns
`(need = false, err = nil)`, so the caller sees no error; retry only happens
on the next external trigger. -/
theorem ca_rebuild_failure_aborts_silently (cfg : Config) (now : Int)
    (kCA kLeaf : RSAPrivateKey) (secret : Secret) (d0 : SecretData) (msg : String)
    (hd : secret.data = some d0)
    (hCA : validCACert cfg (secret.blobOf SecretData.caCrt)
      (secret.blobOf SecretData.caKey) now = true)
    (hSrv : validServerCert cfg (secret.blobOf SecretData.caCrt)
      (secret.blobOf SecretData.tlsCrt) (secret.blobOf SecretData.tlsKey) now = false)
    (hBuild : buildArtifactsFromSecret secret = .err msg) :
    refreshCertIfNeeded cfg now kCA kLeaf secret =
      ⟨false, none, secret, [], false, false⟩ := by
  rw [refreshCertIfNeeded_leaf_cond cfg now kCA kLeaf secret d0 hd hCA hSrv,
    refreshCerts_false_err cfg now kCA kLeaf hBuild]

/-- Counterexample for C7 as stated: with the stored bundle `pkcs8SecretW`
(valid CA certificate, CA key stored as PKCS#8, empty leaf blobs), CA
reconstruction fails while a leaf-only rotation is attempted, yet the pass
reports *no* error upward: the returned error is nil. -/
theorem ca_rebuild_error_swallowed_counterexample :
    buildArtifactsFromSecret pkcs8SecretW =
      .err "asn1: structure error in PKCS1 private key" ∧
    validCACert cfgW (pkcs8SecretW.blobOf SecretData.caCrt)
      (pkcs8SecretW.blobOf SecretData.caKey) 0 = true ∧
    validServerCert cfgW (pkcs8SecretW.blobOf SecretData.caCrt)
      (pkcs8SecretW.blobOf SecretData.tlsCrt)
      (pkcs8SecretW.blobOf SecretData.tlsKey) 0 = false ∧
    (refreshCertIfNeeded cfgW 0 ⟨2⟩ ⟨3⟩ pkcs8SecretW).err = none ∧
    (refreshCertIfNeeded cfgW 0 ⟨2⟩ ⟨3⟩ pkcs8SecretW).secret = pkcs8SecretW ∧
    (refreshCertIfNeeded cfgW 0 ⟨2⟩ ⟨3⟩ pkcs8SecretW).saves = [] := by
  exact ⟨by decide, by decide, by decide, by decide, by decide, by decide⟩

/-- Witness for the amended C7 at the concrete bundle `pkcs8SecretW`. -/
theorem ca_rebuild_failure_aborts_silently_witness :
    refreshCertIfNeeded cfgW 0 ⟨4⟩ ⟨5⟩ pkcs8SecretW =
      ⟨false, none, pkcs8SecretW, [], false, false⟩ :=
  ca_rebuild_failure_aborts_silently cfgW 0 ⟨4⟩ ⟨5⟩ pkcs8SecretW _
    "asn1: structure error in PKCS1 private key" rfl (by decide) (by decide) (by decide)

/-- Claim C6: every rotation pass that changes any stored artifact performs
exactly one store save, and its payload is the complete four-blob bundle
(`ca.crt`, `ca.key`, `tls.crt`, `tls.key` all present) — never a partial
write — and coincides with the new stored state. -/
theorem rotation_single_full_save (cfg : Config) (now : Int)
    (kCA kLeaf : RSAPrivateKey) (secret : Secret)
    (hChange : (refreshCertIfNeeded cfg now kCA kLeaf secret).secret ≠ secret) :
    ∃ d, (refreshCertIfNeeded cfg now kCA kLeaf secret).saves = [d] ∧
      (refreshCertIfNeeded cfg now kCA kLeaf secret).secret = ⟨some d⟩ ∧
      d.caCrt.isSome = true ∧ d.caKey.isSome = true ∧
      d.tlsCrt.isSome = true ∧ d.tlsKey.isSome = true := by
  by_cases hA : (secret.data.isNone
      || !(validCACert cfg (secret.blobOf SecretData.caCrt)
            (secret.blobOf SecretData.caKey) now)) = true
  · rw [refreshCertIfNeeded_ca_rotate cfg now kCA kLeaf secret hA]
    exact ⟨caRotationData cfg now kCA kLeaf secret, rfl, rfl, rfl, rfl, rfl, rfl⟩
  · obtain ⟨⟨d0, hd⟩, hCA⟩ := not_ca_branch_elim hA
    by_cases hSrv : validServerCert cfg (secret.blobOf SecretData.caCrt)
        (secret.blobOf SecretData.tlsCrt) (secret.blobOf SecretData.tlsKey) now = true
    · rw [refreshCertIfNeeded_noop cfg now kCA kLeaf secret d0 hd hCA hSrv] at hChange
      exact absurd rfl hChange
    · have hSrv' : validServerCert cfg (secret.blobOf SecretData.caCrt)
          (secret.blobOf SecretData.tlsCrt) (secret.blobOf SecretData.tlsKey) now = false := by
        cases hx : validServerCert cfg (secret.blobOf SecretData.caCrt)
            (secret.blobOf SecretData.tlsCrt) (secret.blobOf SecretData.tlsKey) now with
        | true => exact absurd hx hSrv
        | false => rfl
      rcases hbuild : buildArtifactsFromSecret secret with a | msg | _
      · rw [refreshCertIfNeeded_leaf_cond cfg now kCA kLeaf secret d0 hd hCA hSrv',
          refreshCerts_false_ok cfg now kCA kLeaf hbuild]
        exact ⟨leafRotationData cfg now kLeaf a secret, rfl, rfl, rfl, rfl, rfl, rfl⟩
      · rw [refreshCertIfNeeded_leaf_cond cfg now kCA kLeaf secret d0 hd hCA hSrv',
          refreshCerts_false_err cfg now kCA kLeaf hbuild] at hChange
        exact absurd rfl hChange
      · rw [refreshCertIfNeeded_leaf_cond cfg now kCA kLeaf secret d0 hd hCA hSrv',
          refreshCerts_false_panicked cfg now kCA kLeaf hbuild] at hChange
        exact absurd rfl hChange

/-- Witness for C6: the empty bundle forces a full rotation; the single save
carries all four blobs. -/
theorem rotation_single_full_save_witness :
    ∃ d, (refreshCertIfNeeded cfgW 0 ⟨1⟩ ⟨2⟩ ⟨none⟩).saves = [d] ∧
      (refreshCertIfNeeded cfgW 0 ⟨1⟩ ⟨2⟩ ⟨none⟩).secret = ⟨some d⟩ ∧
      d.caCrt.isSome = true ∧ d.caKey.isSome = true ∧
      d.tlsCrt.isSome = true ∧ d.tlsKey.isSome = true :=
  rotation_single_full_save cfgW 0 ⟨1⟩ ⟨2⟩ ⟨none⟩ (by decide)

/-- Claim C3: for a bundle whose CA is valid at the lookahead time but whose
leaf is not, the rotation pass leaves the CA certificate and CA key blobs
byte-for-byte identical to the stored ones (the CA artifacts are re-derived
by parsing the stored PEM — `buildArtifactsFromSecret` — not re-issued), and
whenever that reconstruction succeeds, the pass writes a fresh leaf whose
certificate is signed by the existing CA: signature key = the stored CA
private key, issuer = the stored CA certificate's subject. -/
theorem leaf_only_rotation_frame (cfg : Config) (now : Int)
    (kCA kLeaf : RSAPrivateKey) (d0 : SecretData)
    (hCA : validCACert cfg ((Secret.mk (some d0)).blobOf SecretData.caCrt)
      ((Secret.mk (some d0)).blobOf SecretData.caKey) now = true)
    (hSrv : validServerCert cfg ((Secret.mk (some d0)).blobOf SecretData.caCrt)
      ((Secret.mk (some d0)).blobOf SecretData.tlsCrt)
      ((Secret.mk (some d0)).blobOf SecretData.tlsKey) now = false) :
    ∃ d1, (refreshCertIfNeeded cfg now kCA kLeaf ⟨some d0⟩).secret = ⟨some d1⟩ ∧
      d1.caCrt = d0.caCrt ∧ d1.caKey = d0.caKey ∧
      (∀ a, buildArtifactsFromSecret ⟨some d0⟩ = .ok a →
        d0.caCrt = some a.certPEM ∧
        d1.tlsCrt = some (wrapPem "CERTIFICATE"
          (Der.cert (leafCertOf cfg a (now - hourSec) (now + certValidityDuration) kLeaf))) ∧
        d1.tlsKey = some (wrapPem "RSA PRIVATE KEY" (Der.keyPKCS1 kLeaf)) ∧
        (leafCertOf cfg a (now - hourSec) (now + certValidityDuration) kLeaf).sigKey
          = a.key.publicKey ∧
        (leafCertOf cfg a (now - hourSec) (now + certValidityDuration) kLeaf).issuerCN
          = a.cert.commonName) := by
  rcases hbuild : buildArtifactsFromSecret (⟨some d0⟩ : Secret) with a | msg | _
  · rw [refreshCertIfNeeded_leaf_cond cfg now kCA kLeaf ⟨some d0⟩ d0 rfl hCA hSrv,
      refreshCerts_false_ok cfg now kCA kLeaf hbuild]
    obtain ⟨d0', ty, ty2, kd, hd', h1, h2, hdec, hkdec, hpk⟩ := build_ok_elim hbuild
    have hdd : d0 = d0' := Option.some.inj hd'
    subst hdd
    refine ⟨leafRotationData cfg now kLeaf a ⟨some d0⟩, rfl, h1.symm, h2.symm, ?_⟩
    intro a2 ha2
    obtain rfl := BuildResult.ok.inj ha2
    exact ⟨h1, rfl, rfl, rfl, rfl⟩
  · rw [refreshCertIfNeeded_leaf_cond cfg now kCA kLeaf ⟨some d0⟩ d0 rfl hCA hSrv,
      refreshCerts_false_err cfg now kCA kLeaf hbuild]
    refine ⟨d0, rfl, rfl, rfl, ?_⟩
    intro a2 ha2
    exact absurd ha2 (by simp)
  · rw [refreshCertIfNeeded_leaf_cond cfg now kCA kLeaf ⟨some d0⟩ d0 rfl hCA hSrv,
      refreshCerts_false_panicked cfg now kCA kLeaf hbuild]
    refine ⟨d0, rfl, rfl, rfl, ?_⟩
    intro a2 ha2
    exact absurd ha2 (by simp)

/-- Witness for C3: the concrete bundle `goodCaSecretDataW` (genuine CA with
PKCS#1 key, empty leaf blobs) at time 0 with fresh leaf key 9. -/
theorem leaf_only_rotation_frame_witness :
    ∃ d1, (refreshCertIfNeeded cfgW 0 ⟨8⟩ ⟨9⟩ ⟨some goodCaSecretDataW⟩).secret = ⟨some d1⟩ ∧
      d1.caCrt = goodCaSecretDataW.caCrt ∧ d1.caKey = goodCaSecretDataW.caKey ∧
      (∀ a, buildArtifactsFromSecret ⟨some goodCaSecretDataW⟩ = .ok a →
        goodCaSecretDataW.caCrt = some a.certPEM ∧
        d1.tlsCrt = some (wrapPem "CERTIFICATE"
          (Der.cert (leafCertOf cfgW a (0 - hourSec) (0 + certValidityDuration) ⟨9⟩))) ∧
        d1.tlsKey = some (wrapPem "RSA PRIVATE KEY" (Der.keyPKCS1 ⟨9⟩)) ∧
        (leafCertOf cfgW a (0 - hourSec) (0 + certValidityDuration) ⟨9⟩).sigKey
          = a.key.publicKey ∧
        (leafCertOf cfgW a (0 - hourSec) (0 + certValidityDuration) ⟨9⟩).issuerCN
          = a.cert.commonName) :=
  leaf_only_rotation_frame cfgW 0 ⟨8⟩ ⟨9⟩ goodCaSecretDataW (by decide) (by decide)

end CrdsController
